import Mathlib

/-!
Shallow embedding of the MT3620 bare-metal ADC real-time application
(mt3620-baremetal.h and the application main file) and proofs of the
specification claims about it.

Memory-mapped register banks are modelled as a store of type Nat to Nat
from byte addresses to the value last written there.  An 8-bit store
keeps only the low 8 bits of the value and a 32-bit store only the low
32 bits, mirroring the uint8_t and uint32_t parameter types of the C
accessors.  Machine integers are Nat with explicit reductions modulo
2 ^ 8 or 2 ^ 32 exactly where the C types truncate.
-/

namespace MT3620

/-- Base address of the System Control Block (SCB_BASE in the header). -/
def SCB_BASE : Nat := 0xE000ED00

/-- Base address of the NVIC Set-Enable registers (NVIC_ISER_BASE). -/
def NVIC_ISER_BASE : Nat := 0xE000E100

/-- Base address of the NVIC Interrupt Priority registers (NVIC_IPR_BASE). -/
def NVIC_IPR_BASE : Nat := 0xE000E400

/-- IRQ_PRIORITY_BITS: the IOM4 cores use three bits to encode interrupt
priorities. -/
def IRQ_PRIORITY_BITS : Nat := 3

/-- WriteReg8: store one 8-bit value at baseAddr + offset.  The value
parameter has C type uint8_t, so only the low 8 bits are kept. -/
def WriteReg8 (baseAddr offset value : Nat) (mem : Nat → Nat) : Nat → Nat :=
  fun a => if a = baseAddr + offset then value % 2 ^ 8 else mem a

/-- WriteReg32: store one 32-bit value at baseAddr + offset.  The value
parameter has C type uint32_t, so only the low 32 bits are kept. -/
def WriteReg32 (baseAddr offset value : Nat) (mem : Nat → Nat) : Nat → Nat :=
  fun a => if a = baseAddr + offset then value % 2 ^ 32 else mem a

/-- ReadReg32: load the 32-bit value at baseAddr + offset. -/
def ReadReg32 (baseAddr offset : Nat) (mem : Nat → Nat) : Nat :=
  mem (baseAddr + offset)

/-- ClearReg32: read the register, clear the supplied bits, write the
result back.  The C statement value &= ~clearBits is, on uint32_t, an
AND with clearBits XOR 0xFFFFFFFF. -/
def ClearReg32 (baseAddr offset clearBits : Nat) (mem : Nat → Nat) : Nat → Nat :=
  WriteReg32 baseAddr offset
    (ReadReg32 baseAddr offset mem &&& (0xFFFFFFFF ^^^ clearBits)) mem

/-- SetReg32: read the register, set the supplied bits (value |= setBits),
write the result back. -/
def SetReg32 (baseAddr offset setBits : Nat) (mem : Nat → Nat) : Nat → Nat :=
  WriteReg32 baseAddr offset (ReadReg32 baseAddr offset mem ||| setBits) mem

/-- BlockIrqs: read BASEPRI into prevBasePri, write 1 (block priority 1
and above) to BASEPRI, and return the previous value.  The state is the
BASEPRI register; the result is (returned token, new BASEPRI value). -/
def BlockIrqs (basepri : Nat) : Nat × Nat :=
  (basepri, 1)

/-- RestoreIrqs: write the token returned by BlockIrqs back into
BASEPRI. -/
def RestoreIrqs (prevBasePri : Nat) (_basepri : Nat) : Nat :=
  prevBasePri

/-- SetNvicPriority: write the byte pri << (8 - IRQ_PRIORITY_BITS) to
byte offset irqNum of the IPR bank.  WriteReg8 takes a uint8_t, so the
shifted value is truncated to 8 bits at the call. -/
def SetNvicPriority (irqNum pri : Nat) (mem : Nat → Nat) : Nat → Nat :=
  WriteReg8 NVIC_IPR_BASE irqNum (pri <<< (8 - IRQ_PRIORITY_BITS)) mem

/-- EnableNvicInterrupt: set bit irqNum % 32 of the enable word at byte
offset 4 * (irqNum / 32) of the ISER bank. -/
def EnableNvicInterrupt (irqNum : Nat) (mem : Nat → Nat) : Nat → Nat :=
  SetReg32 NVIC_ISER_BASE (4 * (irqNum / 32)) (1 <<< (irqNum % 32)) mem

/-- Innermost arm of the POW2_CEIL conditional chain: the final else 0x01. -/
def pow2Chain0 (_x : Nat) : Nat :=
  0x1

def pow2Chain1 (x : Nat) : Nat :=
  if x > 0x0000000000000001 then 0x2 else pow2Chain0 x

def pow2Chain2 (x : Nat) : Nat :=
  if x > 0x0000000000000002 then 0x4 else pow2Chain1 x

def pow2Chain3 (x : Nat) : Nat :=
  if x > 0x0000000000000004 then 0x8 else pow2Chain2 x

def pow2Chain4 (x : Nat) : Nat :=
  if x > 0x0000000000000008 then 0x10 else pow2Chain3 x

def pow2Chain5 (x : Nat) : Nat :=
  if x > 0x0000000000000010 then 0x20 else pow2Chain4 x

def pow2Chain6 (x : Nat) : Nat :=
  if x > 0x0000000000000020 then 0x40 else pow2Chain5 x

def pow2Chain7 (x : Nat) : Nat :=
  if x > 0x0000000000000040 then 0x80 else pow2Chain6 x

def pow2Chain8 (x : Nat) : Nat :=
  if x > 0x0000000000000080 then 0x100 else pow2Chain7 x

def pow2Chain9 (x : Nat) : Nat :=
  if x > 0x0000000000000100 then 0x200 else pow2Chain8 x

def pow2Chain10 (x : Nat) : Nat :=
  if x > 0x0000000000000200 then 0x400 else pow2Chain9 x

def pow2Chain11 (x : Nat) : Nat :=
  if x > 0x0000000000000400 then 0x800 else pow2Chain10 x

def pow2Chain12 (x : Nat) : Nat :=
  if x > 0x0000000000000800 then 0x1000 else pow2Chain11 x

def pow2Chain13 (x : Nat) : Nat :=
  if x > 0x0000000000001000 then 0x2000 else pow2Chain12 x

def pow2Chain14 (x : Nat) : Nat :=
  if x > 0x0000000000002000 then 0x4000 else pow2Chain13 x

def pow2Chain15 (x : Nat) : Nat :=
  if x > 0x0000000000004000 then 0x8000 else pow2Chain14 x

def pow2Chain16 (x : Nat) : Nat :=
  if x > 0x0000000000008000 then 0x10000 else pow2Chain15 x

def pow2Chain17 (x : Nat) : Nat :=
  if x > 0x0000000000010000 then 0x20000 else pow2Chain16 x

def pow2Chain18 (x : Nat) : Nat :=
  if x > 0x0000000000020000 then 0x40000 else pow2Chain17 x

def pow2Chain19 (x : Nat) : Nat :=
  if x > 0x0000000000040000 then 0x80000 else pow2Chain18 x

def pow2Chain20 (x : Nat) : Nat :=
  if x > 0x0000000000080000 then 0x100000 else pow2Chain19 x

def pow2Chain21 (x : Nat) : Nat :=
  if x > 0x0000000000100000 then 0x200000 else pow2Chain20 x

def pow2Chain22 (x : Nat) : Nat :=
  if x > 0x0000000000200000 then 0x400000 else pow2Chain21 x

def pow2Chain23 (x : Nat) : Nat :=
  if x > 0x0000000000400000 then 0x800000 else pow2Chain22 x

def pow2Chain24 (x : Nat) : Nat :=
  if x > 0x0000000000800000 then 0x1000000 else pow2Chain23 x

def pow2Chain25 (x : Nat) : Nat :=
  if x > 0x0000000001000000 then 0x2000000 else pow2Chain24 x

def pow2Chain26 (x : Nat) : Nat :=
  if x > 0x0000000002000000 then 0x4000000 else pow2Chain25 x

def pow2Chain27 (x : Nat) : Nat :=
  if x > 0x0000000004000000 then 0x8000000 else pow2Chain26 x

def pow2Chain28 (x : Nat) : Nat :=
  if x > 0x0000000008000000 then 0x10000000 else pow2Chain27 x

def pow2Chain29 (x : Nat) : Nat :=
  if x > 0x0000000010000000 then 0x20000000 else pow2Chain28 x

def pow2Chain30 (x : Nat) : Nat :=
  if x > 0x0000000020000000 then 0x40000000 else pow2Chain29 x

def pow2Chain31 (x : Nat) : Nat :=
  if x > 0x0000000040000000 then 0x80000000 else pow2Chain30 x

def pow2Chain32 (x : Nat) : Nat :=
  if x > 0x0000000080000000 then 0x100000000 else pow2Chain31 x

def pow2Chain33 (x : Nat) : Nat :=
  if x > 0x0000000100000000 then 0x200000000 else pow2Chain32 x

def pow2Chain34 (x : Nat) : Nat :=
  if x > 0x0000000200000000 then 0x400000000 else pow2Chain33 x

def pow2Chain35 (x : Nat) : Nat :=
  if x > 0x0000000400000000 then 0x800000000 else pow2Chain34 x

def pow2Chain36 (x : Nat) : Nat :=
  if x > 0x0000000800000000 then 0x1000000000 else pow2Chain35 x

def pow2Chain37 (x : Nat) : Nat :=
  if x > 0x0000001000000000 then 0x2000000000 else pow2Chain36 x

def pow2Chain38 (x : Nat) : Nat :=
  if x > 0x0000002000000000 then 0x4000000000 else pow2Chain37 x

def pow2Chain39 (x : Nat) : Nat :=
  if x > 0x0000004000000000 then 0x8000000000 else pow2Chain38 x

def pow2Chain40 (x : Nat) : Nat :=
  if x > 0x0000008000000000 then 0x10000000000 else pow2Chain39 x

def pow2Chain41 (x : Nat) : Nat :=
  if x > 0x0000010000000000 then 0x20000000000 else pow2Chain40 x

def pow2Chain42 (x : Nat) : Nat :=
  if x > 0x0000020000000000 then 0x40000000000 else pow2Chain41 x

def pow2Chain43 (x : Nat) : Nat :=
  if x > 0x0000040000000000 then 0x80000000000 else pow2Chain42 x

def pow2Chain44 (x : Nat) : Nat :=
  if x > 0x0000080000000000 then 0x100000000000 else pow2Chain43 x

def pow2Chain45 (x : Nat) : Nat :=
  if x > 0x0000100000000000 then 0x200000000000 else pow2Chain44 x

def pow2Chain46 (x : Nat) : Nat :=
  if x > 0x0000200000000000 then 0x400000000000 else pow2Chain45 x

def pow2Chain47 (x : Nat) : Nat :=
  if x > 0x0000400000000000 then 0x800000000000 else pow2Chain46 x

def pow2Chain48 (x : Nat) : Nat :=
  if x > 0x0000800000000000 then 0x1000000000000 else pow2Chain47 x

def pow2Chain49 (x : Nat) : Nat :=
  if x > 0x0001000000000000 then 0x2000000000000 else pow2Chain48 x

def pow2Chain50 (x : Nat) : Nat :=
  if x > 0x0002000000000000 then 0x4000000000000 else pow2Chain49 x

def pow2Chain51 (x : Nat) : Nat :=
  if x > 0x0004000000000000 then 0x8000000000000 else pow2Chain50 x

def pow2Chain52 (x : Nat) : Nat :=
  if x > 0x0008000000000000 then 0x10000000000000 else pow2Chain51 x

def pow2Chain53 (x : Nat) : Nat :=
  if x > 0x0010000000000000 then 0x20000000000000 else pow2Chain52 x

def pow2Chain54 (x : Nat) : Nat :=
  if x > 0x0020000000000000 then 0x40000000000000 else pow2Chain53 x

def pow2Chain55 (x : Nat) : Nat :=
  if x > 0x0040000000000000 then 0x80000000000000 else pow2Chain54 x

def pow2Chain56 (x : Nat) : Nat :=
  if x > 0x0080000000000000 then 0x100000000000000 else pow2Chain55 x

def pow2Chain57 (x : Nat) : Nat :=
  if x > 0x0100000000000000 then 0x200000000000000 else pow2Chain56 x

def pow2Chain58 (x : Nat) : Nat :=
  if x > 0x0200000000000000 then 0x400000000000000 else pow2Chain57 x

def pow2Chain59 (x : Nat) : Nat :=
  if x > 0x0400000000000000 then 0x800000000000000 else pow2Chain58 x

def pow2Chain60 (x : Nat) : Nat :=
  if x > 0x0800000000000000 then 0x1000000000000000 else pow2Chain59 x

def pow2Chain61 (x : Nat) : Nat :=
  if x > 0x1000000000000000 then 0x2000000000000000 else pow2Chain60 x

def pow2Chain62 (x : Nat) : Nat :=
  if x > 0x2000000000000000 then 0x4000000000000000 else pow2Chain61 x

def pow2Chain63 (x : Nat) : Nat :=
  if x > 0x4000000000000000 then 0x8000000000000000 else pow2Chain62 x

/-- POW2_CEIL from mt3620-baremetal.h: the 65-arm nested conditional that
returns the next power of two at least as large as the argument, written
here with each tail of the conditional chain as a named definition
pow2ChainK (the arm testing x against 2 to the K-1).  Arguments above
2^63 fall into the overflow arm, which yields 0. -/
def POW2_CEIL (x : Nat) : Nat :=
  if x > 0x8000000000000000 then 0 else pow2Chain63 x

/-- INTERRUPT_COUNT from the application main file (from the datasheet). -/
def INTERRUPT_COUNT : Nat := 100

/-- EXCEPTION_COUNT: a stack pointer slot, 15 exception slots, and one
slot per interrupt. -/
def EXCEPTION_COUNT : Nat := 16 + INTERRUPT_COUNT

/-- INT_TO_EXC: peripheral interrupt i occupies exception slot 16 + i. -/
def INT_TO_EXC (i : Nat) : Nat := 16 + i

/-- Size of uintptr_t on the target: the IOM4 core is a 32-bit ARM
Cortex-M4F, so pointers are 4 bytes. -/
def sizeofUintptr : Nat := 4

/-- EXCEPTION_TABLE_EXPECTED_SIZE = EXCEPTION_COUNT * sizeof(uintptr_t). -/
def EXCEPTION_TABLE_EXPECTED_SIZE : Nat := EXCEPTION_COUNT * sizeofUintptr

/-- EXCEPTION_TABLE_ALIGNMENT: POW2_CEIL of the expected size, with a
floor of 128, exactly as the conditional in the application main file. -/
def EXCEPTION_TABLE_ALIGNMENT : Nat :=
  if POW2_CEIL EXCEPTION_TABLE_EXPECTED_SIZE < 128 then 128
  else POW2_CEIL EXCEPTION_TABLE_EXPECTED_SIZE

/-- sizeof(EXCEPTION_VECTOR_TABLE): the struct payload is the array
v[EXCEPTION_COUNT] of uintptr_t.  The aligned(EXCEPTION_TABLE_ALIGNMENT)
attribute raises the alignment of the type, and C requires sizeof to be
a multiple of the alignment, so the compiler pads the struct size up to
the next multiple of EXCEPTION_TABLE_ALIGNMENT. -/
def sizeofEXCEPTION_VECTOR_TABLE : Nat :=
  ((EXCEPTION_TABLE_EXPECTED_SIZE + EXCEPTION_TABLE_ALIGNMENT - 1) /
    EXCEPTION_TABLE_ALIGNMENT) * EXCEPTION_TABLE_ALIGNMENT

/-- The compile-time assertion actually present in the application main
file, LOCAL_C_ASSERT(sizeof(EXCEPTION_VECTOR_TABLE) ==
EXCEPTION_TABLE_ALIGNMENT): the build succeeds exactly when this
proposition holds. -/
def exceptionTableSizeAssert : Prop :=
  sizeofEXCEPTION_VECTOR_TABLE = EXCEPTION_TABLE_ALIGNMENT

/-- The assertion the specification describes instead: the table's
in-memory size equals the expected size (16 + interrupt count) *
pointer size.  Stated from the spec wording, for comparison with
exceptionTableSizeAssert. -/
def specTableSizeAssert : Prop :=
  sizeofEXCEPTION_VECTOR_TABLE = EXCEPTION_TABLE_EXPECTED_SIZE

/-- The ExceptionVectorTable initializer of the application main file as
a function from slot index to entry value, parameterized by the
link-time addresses of StackTop, RTCoreMain and
DefaultExceptionHandler.  Slots not named in the designated initializer
are zero. -/
def ExceptionVectorTable (stackTop rtCoreMain defaultHandler : Nat) (i : Nat) : Nat :=
  if i = 0 then stackTop
  else if i = 1 then rtCoreMain
  else if i = 2 then defaultHandler
  else if i = 3 then defaultHandler
  else if i = 4 then defaultHandler
  else if i = 5 then defaultHandler
  else if i = 6 then defaultHandler
  else if i = 11 then defaultHandler
  else if i = 12 then defaultHandler
  else if i = 14 then defaultHandler
  else if i = 15 then defaultHandler
  else if INT_TO_EXC 0 ≤ i ∧ i ≤ INT_TO_EXC (INTERRUPT_COUNT - 1) then defaultHandler
  else 0

/-- The millivolt conversion in the main loop:
uint32_t mV = (value * 2500) / 0xFFF, computed in uint32_t arithmetic. -/
def loopMilliVolts (value : Nat) : Nat :=
  ((value * 2500) % 2 ^ 32) / 0xFFF

/-- Modelled from the spec: Uart_WriteIntegerPoll is declared in
mt3620-uart-poll.h, whose implementation is not among the sources; the
spec describes it as writing the decimal representation of the integer.
Modelled as producing the emitted text. -/
def Uart_WriteIntegerPoll (n : Nat) : String :=
  toString n

/-- Modelled from the spec: Uart_WriteIntegerWidthPoll is declared in
mt3620-uart-poll.h, whose implementation is not among the sources; the
spec describes it as writing the decimal representation zero-padded to
the given minimum number of digits. -/
def Uart_WriteIntegerWidthPoll (n width : Nat) : String :=
  String.mk (List.replicate (width - (toString n).length) '0') ++ toString n

/-- The text the loop body emits for one raw sample before the line
terminator: whole part, a dot, fractional part zero-padded to three
digits. -/
def formattedSample (value : Nat) : String :=
  Uart_WriteIntegerPoll (loopMilliVolts value / 1000) ++ "." ++
    Uart_WriteIntegerWidthPoll (loopMilliVolts value % 1000) 3

/-- The complete line the loop body emits for one raw sample. -/
def loopLine (value : Nat) : String :=
  formattedSample value ++ "\r\n"

end MT3620

namespace MT3620

lemma testBit_one_eq (m : Nat) : Nat.testBit 1 m = decide (m = 0) := by
  cases m with
  | zero => decide
  | succ k => simp [Nat.testBit_succ]

lemma testBit_mod32 (x j : Nat) :
    (x % 4294967296).testBit j = (decide (j < 32) && x.testBit j) := by
  have h : (4294967296 : Nat) = 2 ^ 32 := by norm_num
  rw [h, Nat.testBit_mod_two_pow]

/-- Claim C6: SetReg32 followed by ReadReg32 at the same address returns
the old value OR the mask, and ClearReg32 followed by ReadReg32 returns
the old value AND the complement of the mask, for every base address,
offset, 32-bit mask and 32-bit initial register value, on simple
read/write memory. -/
theorem setReg32_clearReg32_read_back (base off mask : Nat) (mem : Nat → Nat)
    (hmask : mask < 2 ^ 32) (hold : mem (base + off) < 2 ^ 32) :
    ReadReg32 base off (SetReg32 base off mask mem) = mem (base + off) ||| mask ∧
    ReadReg32 base off (ClearReg32 base off mask mem) =
      mem (base + off) &&& (0xFFFFFFFF ^^^ mask) := by
  constructor
  · show (if base + off = base + off then (mem (base + off) ||| mask) % 2 ^ 32
      else mem (base + off)) = mem (base + off) ||| mask
    rw [if_pos rfl]
    exact Nat.mod_eq_of_lt (Nat.or_lt_two_pow hold hmask)
  · show (if base + off = base + off then
        (mem (base + off) &&& (0xFFFFFFFF ^^^ mask)) % 2 ^ 32
      else mem (base + off)) = mem (base + off) &&& (0xFFFFFFFF ^^^ mask)
    rw [if_pos rfl]
    exact Nat.mod_eq_of_lt (Nat.lt_of_le_of_lt Nat.and_le_left hold)

/-- Witness for setReg32_clearReg32_read_back at concrete inputs. -/
theorem setReg32_clearReg32_read_back_witness :
    ReadReg32 0 0 (SetReg32 0 0 0xF0 (fun _ => 0x0F)) = (0x0F ||| 0xF0) ∧
    ReadReg32 0 0 (ClearReg32 0 0 0xF0 (fun _ => 0xFF)) =
      (0xFF &&& (0xFFFFFFFF ^^^ 0xF0)) := by
  refine ⟨?_, ?_⟩
  · have h := setReg32_clearReg32_read_back 0 0 0xF0 (fun _ => 0x0F)
      (by decide) (by decide)
    exact h.1
  · have h := setReg32_clearReg32_read_back 0 0 0xF0 (fun _ => 0xFF)
      (by decide) (by decide)
    exact h.2

/-- Claim C4: BlockIrqs immediately followed by RestoreIrqs of the
returned token restores BASEPRI to exactly its previous value, for every
prior mask value, including the already-blocked value 1 and the
already-unblocked value 0; and two strictly matched nested block/restore
pairs restore the original mask after both complete. -/
theorem blockIrqs_restoreIrqs_roundtrip (s0 : Nat) :
    (RestoreIrqs (BlockIrqs s0).1 (BlockIrqs s0).2 = s0) ∧
    (let t1 := (BlockIrqs s0).1
     let s1 := (BlockIrqs s0).2
     let t2 := (BlockIrqs s1).1
     let s2 := (BlockIrqs s1).2
     let s3 := RestoreIrqs t2 s2
     let s4 := RestoreIrqs t1 s3
     s4 = s0 ∧ s3 = s1) := by
  exact ⟨rfl, rfl, rfl⟩

/-- Claim C5: for an interrupt number i in [0, 100), EnableNvicInterrupt
sets bit i % 32 in word i / 32 of the enable-register bank (the 32-bit
word at byte offset 4 * (i / 32)) and leaves every other bit of that
word unchanged. -/
theorem enableNvicInterrupt_sets_bit (i : Nat) (mem : Nat → Nat) (hi : i < 100) :
    ((EnableNvicInterrupt i mem) (NVIC_ISER_BASE + 4 * (i / 32))).testBit (i % 32) = true ∧
    ∀ j, j < 32 → j ≠ i % 32 →
      ((EnableNvicInterrupt i mem) (NVIC_ISER_BASE + 4 * (i / 32))).testBit j =
        (mem (NVIC_ISER_BASE + 4 * (i / 32))).testBit j := by
  unfold EnableNvicInterrupt SetReg32 WriteReg32 ReadReg32
  constructor
  · have h32 : i % 32 < 32 := Nat.mod_lt _ (by omega)
    simp [testBit_mod32, Nat.testBit_mod_two_pow, Nat.testBit_or, Nat.testBit_shiftLeft,
      testBit_one_eq, h32]
  · intro j hj hne
    by_cases hle : i % 32 ≤ j
    · simp [testBit_mod32, Nat.testBit_mod_two_pow, Nat.testBit_or, Nat.testBit_shiftLeft,
        testBit_one_eq, hj, hle, show ¬ (j - i % 32 = 0) by omega]
    · simp [testBit_mod32, Nat.testBit_mod_two_pow, Nat.testBit_or, Nat.testBit_shiftLeft,
        testBit_one_eq, hj, hle]

/-- Witness for enableNvicInterrupt_sets_bit at i = 33 on the zeroed
bank. -/
theorem enableNvicInterrupt_sets_bit_witness :
    ((EnableNvicInterrupt 33 (fun _ => 0)) (NVIC_ISER_BASE + 4 * (33 / 32))).testBit (33 % 32)
      = true ∧
    ∀ j, j < 32 → j ≠ 33 % 32 →
      ((EnableNvicInterrupt 33 (fun _ => 0)) (NVIC_ISER_BASE + 4 * (33 / 32))).testBit j =
        ((fun _ => (0 : Nat)) (NVIC_ISER_BASE + 4 * (33 / 32))).testBit j :=
  enableNvicInterrupt_sets_bit 33 (fun _ => 0) (by decide)

/-- Claim C8: EnableNvicInterrupt is idempotent: for every interrupt
number and every initial state of the enable-register bank, enabling
twice leaves the bank in the same state as enabling once. -/
theorem enableNvicInterrupt_idempotent (i : Nat) (mem : Nat → Nat) :
    EnableNvicInterrupt i (EnableNvicInterrupt i mem) = EnableNvicInterrupt i mem := by
  unfold EnableNvicInterrupt SetReg32 WriteReg32 ReadReg32
  funext a
  by_cases ha : a = NVIC_ISER_BASE + 4 * (i / 32)
  · simp only [ha, if_pos rfl]
    apply Nat.eq_of_testBit_eq
    intro j
    simp [testBit_mod32, Nat.testBit_mod_two_pow, Nat.testBit_or]
    by_cases hj : j < 32 <;> simp [hj, Bool.or_assoc]
  · simp [if_neg ha]

set_option maxRecDepth 10000 in
/-- Claim C3 counterexample: there is no priority value for which the
byte written by SetNvicPriority has nonzero bits outside the top
three-bit priority field: for every uint8 priority value 0..255 the
stored byte has its low five bits zero (checked exhaustively at irq 0 on
a zeroed bank), so no out-of-range priority corrupts adjacent priority
bits. -/
theorem setNvicPriority_low_bits_zero :
    ((List.range 256).all fun pri =>
      (SetNvicPriority 0 pri (fun _ => 0)) (NVIC_IPR_BASE + 0) % 32 == 0) = true := by
  decide

/-- Claim C3 (amended): for every in-range priority 0..7 the value is
shifted into the top three bits of the byte with the remaining five bits
zero; an out-of-range priority is truncated modulo 8 into the same
top-three-bit field, silently changing the effective priority, but the
bits outside the field stay zero and no other address of the bank is
written. -/
theorem setNvicPriority_field (irq pri : Nat) (mem : Nat → Nat) (hpri : pri < 256) :
    (SetNvicPriority irq pri mem) (NVIC_IPR_BASE + irq) = (pri % 8) <<< 5 ∧
    (SetNvicPriority irq pri mem) (NVIC_IPR_BASE + irq) % 32 = 0 ∧
    (pri ≤ 7 → (SetNvicPriority irq pri mem) (NVIC_IPR_BASE + irq) = pri <<< 5) ∧
    ∀ a, a ≠ NVIC_IPR_BASE + irq → (SetNvicPriority irq pri mem) a = mem a := by
  have hv : (SetNvicPriority irq pri mem) (NVIC_IPR_BASE + irq) = (pri * 32) % 256 := by
    unfold SetNvicPriority WriteReg8 IRQ_PRIORITY_BITS
    rw [if_pos rfl, Nat.shiftLeft_eq]
    norm_num
  refine ⟨?_, ?_, fun h => ?_, ?_⟩
  · rw [hv, Nat.shiftLeft_eq]
    omega
  · rw [hv]
    omega
  · rw [hv, Nat.shiftLeft_eq]
    omega
  · intro a ha
    unfold SetNvicPriority WriteReg8
    rw [if_neg ha]

/-- Witness for setNvicPriority_field at irq 3 with the out-of-range
priority 9 on a zeroed bank. -/
theorem setNvicPriority_field_witness :
    9 < 256 ∧
    ((SetNvicPriority 3 9 (fun _ => 0)) (NVIC_IPR_BASE + 3) = (9 % 8) <<< 5 ∧
     (SetNvicPriority 3 9 (fun _ => 0)) (NVIC_IPR_BASE + 3) % 32 = 0 ∧
     (9 ≤ 7 → (SetNvicPriority 3 9 (fun _ => 0)) (NVIC_IPR_BASE + 3) = 9 <<< 5) ∧
     ∀ a, a ≠ NVIC_IPR_BASE + 3 →
       (SetNvicPriority 3 9 (fun _ => 0)) a = (fun _ => (0 : Nat)) a) :=
  ⟨by decide, setNvicPriority_field 3 9 (fun _ => 0) (by decide)⟩
lemma pow2Chain0_bound (x : Nat) (h1 : 1 ≤ x) (h2 : x ≤ 1) :
    (∃ k, pow2Chain0 x = 2 ^ k) ∧ x ≤ pow2Chain0 x ∧ pow2Chain0 x < 2 * x := by
  unfold pow2Chain0
  exact ⟨⟨0, by norm_num⟩, by omega, by omega⟩

lemma pow2Chain1_bound (x : Nat) (h1 : 1 ≤ x) (h2 : x ≤ 0x0000000000000002) :
    (∃ j, pow2Chain1 x = 2 ^ j) ∧ x ≤ pow2Chain1 x ∧ pow2Chain1 x < 2 * x := by
  unfold pow2Chain1
  by_cases h : x > 0x0000000000000001
  · rw [if_pos h]
    exact ⟨⟨1, by norm_num⟩, by omega, by omega⟩
  · rw [if_neg h]
    exact pow2Chain0_bound x h1 (by omega)

lemma pow2Chain2_bound (x : Nat) (h1 : 1 ≤ x) (h2 : x ≤ 0x0000000000000004) :
    (∃ j, pow2Chain2 x = 2 ^ j) ∧ x ≤ pow2Chain2 x ∧ pow2Chain2 x < 2 * x := by
  unfold pow2Chain2
  by_cases h : x > 0x0000000000000002
  · rw [if_pos h]
    exact ⟨⟨2, by norm_num⟩, by omega, by omega⟩
  · rw [if_neg h]
    exact pow2Chain1_bound x h1 (by omega)

lemma pow2Chain3_bound (x : Nat) (h1 : 1 ≤ x) (h2 : x ≤ 0x0000000000000008) :
    (∃ j, pow2Chain3 x = 2 ^ j) ∧ x ≤ pow2Chain3 x ∧ pow2Chain3 x < 2 * x := by
  unfold pow2Chain3
  by_cases h : x > 0x0000000000000004
  · rw [if_pos h]
    exact ⟨⟨3, by norm_num⟩, by omega, by omega⟩
  · rw [if_neg h]
    exact pow2Chain2_bound x h1 (by omega)

lemma pow2Chain4_bound (x : Nat) (h1 : 1 ≤ x) (h2 : x ≤ 0x0000000000000010) :
    (∃ j, pow2Chain4 x = 2 ^ j) ∧ x ≤ pow2Chain4 x ∧ pow2Chain4 x < 2 * x := by
  unfold pow2Chain4
  by_cases h : x > 0x0000000000000008
  · rw [if_pos h]
    exact ⟨⟨4, by norm_num⟩, by omega, by omega⟩
  · rw [if_neg h]
    exact pow2Chain3_bound x h1 (by omega)

lemma pow2Chain5_bound (x : Nat) (h1 : 1 ≤ x) (h2 : x ≤ 0x0000000000000020) :
    (∃ j, pow2Chain5 x = 2 ^ j) ∧ x ≤ pow2Chain5 x ∧ pow2Chain5 x < 2 * x := by
  unfold pow2Chain5
  by_cases h : x > 0x0000000000000010
  · rw [if_pos h]
    exact ⟨⟨5, by norm_num⟩, by omega, by omega⟩
  · rw [if_neg h]
    exact pow2Chain4_bound x h1 (by omega)

lemma pow2Chain6_bound (x : Nat) (h1 : 1 ≤ x) (h2 : x ≤ 0x0000000000000040) :
    (∃ j, pow2Chain6 x = 2 ^ j) ∧ x ≤ pow2Chain6 x ∧ pow2Chain6 x < 2 * x := by
  unfold pow2Chain6
  by_cases h : x > 0x0000000000000020
  · rw [if_pos h]
    exact ⟨⟨6, by norm_num⟩, by omega, by omega⟩
  · rw [if_neg h]
    exact pow2Chain5_bound x h1 (by omega)

lemma pow2Chain7_bound (x : Nat) (h1 : 1 ≤ x) (h2 : x ≤ 0x0000000000000080) :
    (∃ j, pow2Chain7 x = 2 ^ j) ∧ x ≤ pow2Chain7 x ∧ pow2Chain7 x < 2 * x := by
  unfold pow2Chain7
  by_cases h : x > 0x0000000000000040
  · rw [if_pos h]
    exact ⟨⟨7, by norm_num⟩, by omega, by omega⟩
  · rw [if_neg h]
    exact pow2Chain6_bound x h1 (by omega)

lemma pow2Chain8_bound (x : Nat) (h1 : 1 ≤ x) (h2 : x ≤ 0x0000000000000100) :
    (∃ j, pow2Chain8 x = 2 ^ j) ∧ x ≤ pow2Chain8 x ∧ pow2Chain8 x < 2 * x := by
  unfold pow2Chain8
  by_cases h : x > 0x0000000000000080
  · rw [if_pos h]
    exact ⟨⟨8, by norm_num⟩, by omega, by omega⟩
  · rw [if_neg h]
    exact pow2Chain7_bound x h1 (by omega)

lemma pow2Chain9_bound (x : Nat) (h1 : 1 ≤ x) (h2 : x ≤ 0x0000000000000200) :
    (∃ j, pow2Chain9 x = 2 ^ j) ∧ x ≤ pow2Chain9 x ∧ pow2Chain9 x < 2 * x := by
  unfold pow2Chain9
  by_cases h : x > 0x0000000000000100
  · rw [if_pos h]
    exact ⟨⟨9, by norm_num⟩, by omega, by omega⟩
  · rw [if_neg h]
    exact pow2Chain8_bound x h1 (by omega)

lemma pow2Chain10_bound (x : Nat) (h1 : 1 ≤ x) (h2 : x ≤ 0x0000000000000400) :
    (∃ j, pow2Chain10 x = 2 ^ j) ∧ x ≤ pow2Chain10 x ∧ pow2Chain10 x < 2 * x := by
  unfold pow2Chain10
  by_cases h : x > 0x0000000000000200
  · rw [if_pos h]
    exact ⟨⟨10, by norm_num⟩, by omega, by omega⟩
  · rw [if_neg h]
    exact pow2Chain9_bound x h1 (by omega)

lemma pow2Chain11_bound (x : Nat) (h1 : 1 ≤ x) (h2 : x ≤ 0x0000000000000800) :
    (∃ j, pow2Chain11 x = 2 ^ j) ∧ x ≤ pow2Chain11 x ∧ pow2Chain11 x < 2 * x := by
  unfold pow2Chain11
  by_cases h : x > 0x0000000000000400
  · rw [if_pos h]
    exact ⟨⟨11, by norm_num⟩, by omega, by omega⟩
  · rw [if_neg h]
    exact pow2Chain10_bound x h1 (by omega)

lemma pow2Chain12_bound (x : Nat) (h1 : 1 ≤ x) (h2 : x ≤ 0x0000000000001000) :
    (∃ j, pow2Chain12 x = 2 ^ j) ∧ x ≤ pow2Chain12 x ∧ pow2Chain12 x < 2 * x := by
  unfold pow2Chain12
  by_cases h : x > 0x0000000000000800
  · rw [if_pos h]
    exact ⟨⟨12, by norm_num⟩, by omega, by omega⟩
  · rw [if_neg h]
    exact pow2Chain11_bound x h1 (by omega)

lemma pow2Chain13_bound (x : Nat) (h1 : 1 ≤ x) (h2 : x ≤ 0x0000000000002000) :
    (∃ j, pow2Chain13 x = 2 ^ j) ∧ x ≤ pow2Chain13 x ∧ pow2Chain13 x < 2 * x := by
  unfold pow2Chain13
  by_cases h : x > 0x0000000000001000
  · rw [if_pos h]
    exact ⟨⟨13, by norm_num⟩, by omega, by omega⟩
  · rw [if_neg h]
    exact pow2Chain12_bound x h1 (by omega)

lemma pow2Chain14_bound (x : Nat) (h1 : 1 ≤ x) (h2 : x ≤ 0x0000000000004000) :
    (∃ j, pow2Chain14 x = 2 ^ j) ∧ x ≤ pow2Chain14 x ∧ pow2Chain14 x < 2 * x := by
  unfold pow2Chain14
  by_cases h : x > 0x0000000000002000
  · rw [if_pos h]
    exact ⟨⟨14, by norm_num⟩, by omega, by omega⟩
  · rw [if_neg h]
    exact pow2Chain13_bound x h1 (by omega)

lemma pow2Chain15_bound (x : Nat) (h1 : 1 ≤ x) (h2 : x ≤ 0x0000000000008000) :
    (∃ j, pow2Chain15 x = 2 ^ j) ∧ x ≤ pow2Chain15 x ∧ pow2Chain15 x < 2 * x := by
  unfold pow2Chain15
  by_cases h : x > 0x0000000000004000
  · rw [if_pos h]
    exact ⟨⟨15, by norm_num⟩, by omega, by omega⟩
  · rw [if_neg h]
    exact pow2Chain14_bound x h1 (by omega)

lemma pow2Chain16_bound (x : Nat) (h1 : 1 ≤ x) (h2 : x ≤ 0x0000000000010000) :
    (∃ j, pow2Chain16 x = 2 ^ j) ∧ x ≤ pow2Chain16 x ∧ pow2Chain16 x < 2 * x := by
  unfold pow2Chain16
  by_cases h : x > 0x0000000000008000
  · rw [if_pos h]
    exact ⟨⟨16, by norm_num⟩, by omega, by omega⟩
  · rw [if_neg h]
    exact pow2Chain15_bound x h1 (by omega)

lemma pow2Chain17_bound (x : Nat) (h1 : 1 ≤ x) (h2 : x ≤ 0x0000000000020000) :
    (∃ j, pow2Chain17 x = 2 ^ j) ∧ x ≤ pow2Chain17 x ∧ pow2Chain17 x < 2 * x := by
  unfold pow2Chain17
  by_cases h : x > 0x0000000000010000
  · rw [if_pos h]
    exact ⟨⟨17, by norm_num⟩, by omega, by omega⟩
  · rw [if_neg h]
    exact pow2Chain16_bound x h1 (by omega)

lemma pow2Chain18_bound (x : Nat) (h1 : 1 ≤ x) (h2 : x ≤ 0x0000000000040000) :
    (∃ j, pow2Chain18 x = 2 ^ j) ∧ x ≤ pow2Chain18 x ∧ pow2Chain18 x < 2 * x := by
  unfold pow2Chain18
  by_cases h : x > 0x0000000000020000
  · rw [if_pos h]
    exact ⟨⟨18, by norm_num⟩, by omega, by omega⟩
  · rw [if_neg h]
    exact pow2Chain17_bound x h1 (by omega)

lemma pow2Chain19_bound (x : Nat) (h1 : 1 ≤ x) (h2 : x ≤ 0x0000000000080000) :
    (∃ j, pow2Chain19 x = 2 ^ j) ∧ x ≤ pow2Chain19 x ∧ pow2Chain19 x < 2 * x := by
  unfold pow2Chain19
  by_cases h : x > 0x0000000000040000
  · rw [if_pos h]
    exact ⟨⟨19, by norm_num⟩, by omega, by omega⟩
  · rw [if_neg h]
    exact pow2Chain18_bound x h1 (by omega)

lemma pow2Chain20_bound (x : Nat) (h1 : 1 ≤ x) (h2 : x ≤ 0x0000000000100000) :
    (∃ j, pow2Chain20 x = 2 ^ j) ∧ x ≤ pow2Chain20 x ∧ pow2Chain20 x < 2 * x := by
  unfold pow2Chain20
  by_cases h : x > 0x0000000000080000
  · rw [if_pos h]
    exact ⟨⟨20, by norm_num⟩, by omega, by omega⟩
  · rw [if_neg h]
    exact pow2Chain19_bound x h1 (by omega)

lemma pow2Chain21_bound (x : Nat) (h1 : 1 ≤ x) (h2 : x ≤ 0x0000000000200000) :
    (∃ j, pow2Chain21 x = 2 ^ j) ∧ x ≤ pow2Chain21 x ∧ pow2Chain21 x < 2 * x := by
  unfold pow2Chain21
  by_cases h : x > 0x0000000000100000
  · rw [if_pos h]
    exact ⟨⟨21, by norm_num⟩, by omega, by omega⟩
  · rw [if_neg h]
    exact pow2Chain20_bound x h1 (by omega)

lemma pow2Chain22_bound (x : Nat) (h1 : 1 ≤ x) (h2 : x ≤ 0x0000000000400000) :
    (∃ j, pow2Chain22 x = 2 ^ j) ∧ x ≤ pow2Chain22 x ∧ pow2Chain22 x < 2 * x := by
  unfold pow2Chain22
  by_cases h : x > 0x0000000000200000
  · rw [if_pos h]
    exact ⟨⟨22, by norm_num⟩, by omega, by omega⟩
  · rw [if_neg h]
    exact pow2Chain21_bound x h1 (by omega)

lemma pow2Chain23_bound (x : Nat) (h1 : 1 ≤ x) (h2 : x ≤ 0x0000000000800000) :
    (∃ j, pow2Chain23 x = 2 ^ j) ∧ x ≤ pow2Chain23 x ∧ pow2Chain23 x < 2 * x := by
  unfold pow2Chain23
  by_cases h : x > 0x0000000000400000
  · rw [if_pos h]
    exact ⟨⟨23, by norm_num⟩, by omega, by omega⟩
  · rw [if_neg h]
    exact pow2Chain22_bound x h1 (by omega)

lemma pow2Chain24_bound (x : Nat) (h1 : 1 ≤ x) (h2 : x ≤ 0x0000000001000000) :
    (∃ j, pow2Chain24 x = 2 ^ j) ∧ x ≤ pow2Chain24 x ∧ pow2Chain24 x < 2 * x := by
  unfold pow2Chain24
  by_cases h : x > 0x0000000000800000
  · rw [if_pos h]
    exact ⟨⟨24, by norm_num⟩, by omega, by omega⟩
  · rw [if_neg h]
    exact pow2Chain23_bound x h1 (by omega)

lemma pow2Chain25_bound (x : Nat) (h1 : 1 ≤ x) (h2 : x ≤ 0x0000000002000000) :
    (∃ j, pow2Chain25 x = 2 ^ j) ∧ x ≤ pow2Chain25 x ∧ pow2Chain25 x < 2 * x := by
  unfold pow2Chain25
  by_cases h : x > 0x0000000001000000
  · rw [if_pos h]
    exact ⟨⟨25, by norm_num⟩, by omega, by omega⟩
  · rw [if_neg h]
    exact pow2Chain24_bound x h1 (by omega)

lemma pow2Chain26_bound (x : Nat) (h1 : 1 ≤ x) (h2 : x ≤ 0x0000000004000000) :
    (∃ j, pow2Chain26 x = 2 ^ j) ∧ x ≤ pow2Chain26 x ∧ pow2Chain26 x < 2 * x := by
  unfold pow2Chain26
  by_cases h : x > 0x0000000002000000
  · rw [if_pos h]
    exact ⟨⟨26, by norm_num⟩, by omega, by omega⟩
  · rw [if_neg h]
    exact pow2Chain25_bound x h1 (by omega)

lemma pow2Chain27_bound (x : Nat) (h1 : 1 ≤ x) (h2 : x ≤ 0x0000000008000000) :
    (∃ j, pow2Chain27 x = 2 ^ j) ∧ x ≤ pow2Chain27 x ∧ pow2Chain27 x < 2 * x := by
  unfold pow2Chain27
  by_cases h : x > 0x0000000004000000
  · rw [if_pos h]
    exact ⟨⟨27, by norm_num⟩, by omega, by omega⟩
  · rw [if_neg h]
    exact pow2Chain26_bound x h1 (by omega)

lemma pow2Chain28_bound (x : Nat) (h1 : 1 ≤ x) (h2 : x ≤ 0x0000000010000000) :
    (∃ j, pow2Chain28 x = 2 ^ j) ∧ x ≤ pow2Chain28 x ∧ pow2Chain28 x < 2 * x := by
  unfold pow2Chain28
  by_cases h : x > 0x0000000008000000
  · rw [if_pos h]
    exact ⟨⟨28, by norm_num⟩, by omega, by omega⟩
  · rw [if_neg h]
    exact pow2Chain27_bound x h1 (by omega)

lemma pow2Chain29_bound (x : Nat) (h1 : 1 ≤ x) (h2 : x ≤ 0x0000000020000000) :
    (∃ j, pow2Chain29 x = 2 ^ j) ∧ x ≤ pow2Chain29 x ∧ pow2Chain29 x < 2 * x := by
  unfold pow2Chain29
  by_cases h : x > 0x0000000010000000
  · rw [if_pos h]
    exact ⟨⟨29, by norm_num⟩, by omega, by omega⟩
  · rw [if_neg h]
    exact pow2Chain28_bound x h1 (by omega)

lemma pow2Chain30_bound (x : Nat) (h1 : 1 ≤ x) (h2 : x ≤ 0x0000000040000000) :
    (∃ j, pow2Chain30 x = 2 ^ j) ∧ x ≤ pow2Chain30 x ∧ pow2Chain30 x < 2 * x := by
  unfold pow2Chain30
  by_cases h : x > 0x0000000020000000
  · rw [if_pos h]
    exact ⟨⟨30, by norm_num⟩, by omega, by omega⟩
  · rw [if_neg h]
    exact pow2Chain29_bound x h1 (by omega)

lemma pow2Chain31_bound (x : Nat) (h1 : 1 ≤ x) (h2 : x ≤ 0x0000000080000000) :
    (∃ j, pow2Chain31 x = 2 ^ j) ∧ x ≤ pow2Chain31 x ∧ pow2Chain31 x < 2 * x := by
  unfold pow2Chain31
  by_cases h : x > 0x0000000040000000
  · rw [if_pos h]
    exact ⟨⟨31, by norm_num⟩, by omega, by omega⟩
  · rw [if_neg h]
    exact pow2Chain30_bound x h1 (by omega)

lemma pow2Chain32_bound (x : Nat) (h1 : 1 ≤ x) (h2 : x ≤ 0x0000000100000000) :
    (∃ j, pow2Chain32 x = 2 ^ j) ∧ x ≤ pow2Chain32 x ∧ pow2Chain32 x < 2 * x := by
  unfold pow2Chain32
  by_cases h : x > 0x0000000080000000
  · rw [if_pos h]
    exact ⟨⟨32, by norm_num⟩, by omega, by omega⟩
  · rw [if_neg h]
    exact pow2Chain31_bound x h1 (by omega)

lemma pow2Chain33_bound (x : Nat) (h1 : 1 ≤ x) (h2 : x ≤ 0x0000000200000000) :
    (∃ j, pow2Chain33 x = 2 ^ j) ∧ x ≤ pow2Chain33 x ∧ pow2Chain33 x < 2 * x := by
  unfold pow2Chain33
  by_cases h : x > 0x0000000100000000
  · rw [if_pos h]
    exact ⟨⟨33, by norm_num⟩, by omega, by omega⟩
  · rw [if_neg h]
    exact pow2Chain32_bound x h1 (by omega)

lemma pow2Chain34_bound (x : Nat) (h1 : 1 ≤ x) (h2 : x ≤ 0x0000000400000000) :
    (∃ j, pow2Chain34 x = 2 ^ j) ∧ x ≤ pow2Chain34 x ∧ pow2Chain34 x < 2 * x := by
  unfold pow2Chain34
  by_cases h : x > 0x0000000200000000
  · rw [if_pos h]
    exact ⟨⟨34, by norm_num⟩, by omega, by omega⟩
  · rw [if_neg h]
    exact pow2Chain33_bound x h1 (by omega)

lemma pow2Chain35_bound (x : Nat) (h1 : 1 ≤ x) (h2 : x ≤ 0x0000000800000000) :
    (∃ j, pow2Chain35 x = 2 ^ j) ∧ x ≤ pow2Chain35 x ∧ pow2Chain35 x < 2 * x := by
  unfold pow2Chain35
  by_cases h : x > 0x0000000400000000
  · rw [if_pos h]
    exact ⟨⟨35, by norm_num⟩, by omega, by omega⟩
  · rw [if_neg h]
    exact pow2Chain34_bound x h1 (by omega)

lemma pow2Chain36_bound (x : Nat) (h1 : 1 ≤ x) (h2 : x ≤ 0x0000001000000000) :
    (∃ j, pow2Chain36 x = 2 ^ j) ∧ x ≤ pow2Chain36 x ∧ pow2Chain36 x < 2 * x := by
  unfold pow2Chain36
  by_cases h : x > 0x0000000800000000
  · rw [if_pos h]
    exact ⟨⟨36, by norm_num⟩, by omega, by omega⟩
  · rw [if_neg h]
    exact pow2Chain35_bound x h1 (by omega)

lemma pow2Chain37_bound (x : Nat) (h1 : 1 ≤ x) (h2 : x ≤ 0x0000002000000000) :
    (∃ j, pow2Chain37 x = 2 ^ j) ∧ x ≤ pow2Chain37 x ∧ pow2Chain37 x < 2 * x := by
  unfold pow2Chain37
  by_cases h : x > 0x0000001000000000
  · rw [if_pos h]
    exact ⟨⟨37, by norm_num⟩, by omega, by omega⟩
  · rw [if_neg h]
    exact pow2Chain36_bound x h1 (by omega)

lemma pow2Chain38_bound (x : Nat) (h1 : 1 ≤ x) (h2 : x ≤ 0x0000004000000000) :
    (∃ j, pow2Chain38 x = 2 ^ j) ∧ x ≤ pow2Chain38 x ∧ pow2Chain38 x < 2 * x := by
  unfold pow2Chain38
  by_cases h : x > 0x0000002000000000
  · rw [if_pos h]
    exact ⟨⟨38, by norm_num⟩, by omega, by omega⟩
  · rw [if_neg h]
    exact pow2Chain37_bound x h1 (by omega)

lemma pow2Chain39_bound (x : Nat) (h1 : 1 ≤ x) (h2 : x ≤ 0x0000008000000000) :
    (∃ j, pow2Chain39 x = 2 ^ j) ∧ x ≤ pow2Chain39 x ∧ pow2Chain39 x < 2 * x := by
  unfold pow2Chain39
  by_cases h : x > 0x0000004000000000
  · rw [if_pos h]
    exact ⟨⟨39, by norm_num⟩, by omega, by omega⟩
  · rw [if_neg h]
    exact pow2Chain38_bound x h1 (by omega)

lemma pow2Chain40_bound (x : Nat) (h1 : 1 ≤ x) (h2 : x ≤ 0x0000010000000000) :
    (∃ j, pow2Chain40 x = 2 ^ j) ∧ x ≤ pow2Chain40 x ∧ pow2Chain40 x < 2 * x := by
  unfold pow2Chain40
  by_cases h : x > 0x0000008000000000
  · rw [if_pos h]
    exact ⟨⟨40, by norm_num⟩, by omega, by omega⟩
  · rw [if_neg h]
    exact pow2Chain39_bound x h1 (by omega)

lemma pow2Chain41_bound (x : Nat) (h1 : 1 ≤ x) (h2 : x ≤ 0x0000020000000000) :
    (∃ j, pow2Chain41 x = 2 ^ j) ∧ x ≤ pow2Chain41 x ∧ pow2Chain41 x < 2 * x := by
  unfold pow2Chain41
  by_cases h : x > 0x0000010000000000
  · rw [if_pos h]
    exact ⟨⟨41, by norm_num⟩, by omega, by omega⟩
  · rw [if_neg h]
    exact pow2Chain40_bound x h1 (by omega)

lemma pow2Chain42_bound (x : Nat) (h1 : 1 ≤ x) (h2 : x ≤ 0x0000040000000000) :
    (∃ j, pow2Chain42 x = 2 ^ j) ∧ x ≤ pow2Chain42 x ∧ pow2Chain42 x < 2 * x := by
  unfold pow2Chain42
  by_cases h : x > 0x0000020000000000
  · rw [if_pos h]
    exact ⟨⟨42, by norm_num⟩, by omega, by omega⟩
  · rw [if_neg h]
    exact pow2Chain41_bound x h1 (by omega)

lemma pow2Chain43_bound (x : Nat) (h1 : 1 ≤ x) (h2 : x ≤ 0x0000080000000000) :
    (∃ j, pow2Chain43 x = 2 ^ j) ∧ x ≤ pow2Chain43 x ∧ pow2Chain43 x < 2 * x := by
  unfold pow2Chain43
  by_cases h : x > 0x0000040000000000
  · rw [if_pos h]
    exact ⟨⟨43, by norm_num⟩, by omega, by omega⟩
  · rw [if_neg h]
    exact pow2Chain42_bound x h1 (by omega)

lemma pow2Chain44_bound (x : Nat) (h1 : 1 ≤ x) (h2 : x ≤ 0x0000100000000000) :
    (∃ j, pow2Chain44 x = 2 ^ j) ∧ x ≤ pow2Chain44 x ∧ pow2Chain44 x < 2 * x := by
  unfold pow2Chain44
  by_cases h : x > 0x0000080000000000
  · rw [if_pos h]
    exact ⟨⟨44, by norm_num⟩, by omega, by omega⟩
  · rw [if_neg h]
    exact pow2Chain43_bound x h1 (by omega)

lemma pow2Chain45_bound (x : Nat) (h1 : 1 ≤ x) (h2 : x ≤ 0x0000200000000000) :
    (∃ j, pow2Chain45 x = 2 ^ j) ∧ x ≤ pow2Chain45 x ∧ pow2Chain45 x < 2 * x := by
  unfold pow2Chain45
  by_cases h : x > 0x0000100000000000
  · rw [if_pos h]
    exact ⟨⟨45, by norm_num⟩, by omega, by omega⟩
  · rw [if_neg h]
    exact pow2Chain44_bound x h1 (by omega)

lemma pow2Chain46_bound (x : Nat) (h1 : 1 ≤ x) (h2 : x ≤ 0x0000400000000000) :
    (∃ j, pow2Chain46 x = 2 ^ j) ∧ x ≤ pow2Chain46 x ∧ pow2Chain46 x < 2 * x := by
  unfold pow2Chain46
  by_cases h : x > 0x0000200000000000
  · rw [if_pos h]
    exact ⟨⟨46, by norm_num⟩, by omega, by omega⟩
  · rw [if_neg h]
    exact pow2Chain45_bound x h1 (by omega)

lemma pow2Chain47_bound (x : Nat) (h1 : 1 ≤ x) (h2 : x ≤ 0x0000800000000000) :
    (∃ j, pow2Chain47 x = 2 ^ j) ∧ x ≤ pow2Chain47 x ∧ pow2Chain47 x < 2 * x := by
  unfold pow2Chain47
  by_cases h : x > 0x0000400000000000
  · rw [if_pos h]
    exact ⟨⟨47, by norm_num⟩, by omega, by omega⟩
  · rw [if_neg h]
    exact pow2Chain46_bound x h1 (by omega)

lemma pow2Chain48_bound (x : Nat) (h1 : 1 ≤ x) (h2 : x ≤ 0x0001000000000000) :
    (∃ j, pow2Chain48 x = 2 ^ j) ∧ x ≤ pow2Chain48 x ∧ pow2Chain48 x < 2 * x := by
  unfold pow2Chain48
  by_cases h : x > 0x0000800000000000
  · rw [if_pos h]
    exact ⟨⟨48, by norm_num⟩, by omega, by omega⟩
  · rw [if_neg h]
    exact pow2Chain47_bound x h1 (by omega)

lemma pow2Chain49_bound (x : Nat) (h1 : 1 ≤ x) (h2 : x ≤ 0x0002000000000000) :
    (∃ j, pow2Chain49 x = 2 ^ j) ∧ x ≤ pow2Chain49 x ∧ pow2Chain49 x < 2 * x := by
  unfold pow2Chain49
  by_cases h : x > 0x0001000000000000
  · rw [if_pos h]
    exact ⟨⟨49, by norm_num⟩, by omega, by omega⟩
  · rw [if_neg h]
    exact pow2Chain48_bound x h1 (by omega)

lemma pow2Chain50_bound (x : Nat) (h1 : 1 ≤ x) (h2 : x ≤ 0x0004000000000000) :
    (∃ j, pow2Chain50 x = 2 ^ j) ∧ x ≤ pow2Chain50 x ∧ pow2Chain50 x < 2 * x := by
  unfold pow2Chain50
  by_cases h : x > 0x0002000000000000
  · rw [if_pos h]
    exact ⟨⟨50, by norm_num⟩, by omega, by omega⟩
  · rw [if_neg h]
    exact pow2Chain49_bound x h1 (by omega)

lemma pow2Chain51_bound (x : Nat) (h1 : 1 ≤ x) (h2 : x ≤ 0x0008000000000000) :
    (∃ j, pow2Chain51 x = 2 ^ j) ∧ x ≤ pow2Chain51 x ∧ pow2Chain51 x < 2 * x := by
  unfold pow2Chain51
  by_cases h : x > 0x0004000000000000
  · rw [if_pos h]
    exact ⟨⟨51, by norm_num⟩, by omega, by omega⟩
  · rw [if_neg h]
    exact pow2Chain50_bound x h1 (by omega)

lemma pow2Chain52_bound (x : Nat) (h1 : 1 ≤ x) (h2 : x ≤ 0x0010000000000000) :
    (∃ j, pow2Chain52 x = 2 ^ j) ∧ x ≤ pow2Chain52 x ∧ pow2Chain52 x < 2 * x := by
  unfold pow2Chain52
  by_cases h : x > 0x0008000000000000
  · rw [if_pos h]
    exact ⟨⟨52, by norm_num⟩, by omega, by omega⟩
  · rw [if_neg h]
    exact pow2Chain51_bound x h1 (by omega)

lemma pow2Chain53_bound (x : Nat) (h1 : 1 ≤ x) (h2 : x ≤ 0x0020000000000000) :
    (∃ j, pow2Chain53 x = 2 ^ j) ∧ x ≤ pow2Chain53 x ∧ pow2Chain53 x < 2 * x := by
  unfold pow2Chain53
  by_cases h : x > 0x0010000000000000
  · rw [if_pos h]
    exact ⟨⟨53, by norm_num⟩, by omega, by omega⟩
  · rw [if_neg h]
    exact pow2Chain52_bound x h1 (by omega)

lemma pow2Chain54_bound (x : Nat) (h1 : 1 ≤ x) (h2 : x ≤ 0x0040000000000000) :
    (∃ j, pow2Chain54 x = 2 ^ j) ∧ x ≤ pow2Chain54 x ∧ pow2Chain54 x < 2 * x := by
  unfold pow2Chain54
  by_cases h : x > 0x0020000000000000
  · rw [if_pos h]
    exact ⟨⟨54, by norm_num⟩, by omega, by omega⟩
  · rw [if_neg h]
    exact pow2Chain53_bound x h1 (by omega)

lemma pow2Chain55_bound (x : Nat) (h1 : 1 ≤ x) (h2 : x ≤ 0x0080000000000000) :
    (∃ j, pow2Chain55 x = 2 ^ j) ∧ x ≤ pow2Chain55 x ∧ pow2Chain55 x < 2 * x := by
  unfold pow2Chain55
  by_cases h : x > 0x0040000000000000
  · rw [if_pos h]
    exact ⟨⟨55, by norm_num⟩, by omega, by omega⟩
  · rw [if_neg h]
    exact pow2Chain54_bound x h1 (by omega)

lemma pow2Chain56_bound (x : Nat) (h1 : 1 ≤ x) (h2 : x ≤ 0x0100000000000000) :
    (∃ j, pow2Chain56 x = 2 ^ j) ∧ x ≤ pow2Chain56 x ∧ pow2Chain56 x < 2 * x := by
  unfold pow2Chain56
  by_cases h : x > 0x0080000000000000
  · rw [if_pos h]
    exact ⟨⟨56, by norm_num⟩, by omega, by omega⟩
  · rw [if_neg h]
    exact pow2Chain55_bound x h1 (by omega)

lemma pow2Chain57_bound (x : Nat) (h1 : 1 ≤ x) (h2 : x ≤ 0x0200000000000000) :
    (∃ j, pow2Chain57 x = 2 ^ j) ∧ x ≤ pow2Chain57 x ∧ pow2Chain57 x < 2 * x := by
  unfold pow2Chain57
  by_cases h : x > 0x0100000000000000
  · rw [if_pos h]
    exact ⟨⟨57, by norm_num⟩, by omega, by omega⟩
  · rw [if_neg h]
    exact pow2Chain56_bound x h1 (by omega)

lemma pow2Chain58_bound (x : Nat) (h1 : 1 ≤ x) (h2 : x ≤ 0x0400000000000000) :
    (∃ j, pow2Chain58 x = 2 ^ j) ∧ x ≤ pow2Chain58 x ∧ pow2Chain58 x < 2 * x := by
  unfold pow2Chain58
  by_cases h : x > 0x0200000000000000
  · rw [if_pos h]
    exact ⟨⟨58, by norm_num⟩, by omega, by omega⟩
  · rw [if_neg h]
    exact pow2Chain57_bound x h1 (by omega)

lemma pow2Chain59_bound (x : Nat) (h1 : 1 ≤ x) (h2 : x ≤ 0x0800000000000000) :
    (∃ j, pow2Chain59 x = 2 ^ j) ∧ x ≤ pow2Chain59 x ∧ pow2Chain59 x < 2 * x := by
  unfold pow2Chain59
  by_cases h : x > 0x0400000000000000
  · rw [if_pos h]
    exact ⟨⟨59, by norm_num⟩, by omega, by omega⟩
  · rw [if_neg h]
    exact pow2Chain58_bound x h1 (by omega)

lemma pow2Chain60_bound (x : Nat) (h1 : 1 ≤ x) (h2 : x ≤ 0x1000000000000000) :
    (∃ j, pow2Chain60 x = 2 ^ j) ∧ x ≤ pow2Chain60 x ∧ pow2Chain60 x < 2 * x := by
  unfold pow2Chain60
  by_cases h : x > 0x0800000000000000
  · rw [if_pos h]
    exact ⟨⟨60, by norm_num⟩, by omega, by omega⟩
  · rw [if_neg h]
    exact pow2Chain59_bound x h1 (by omega)

lemma pow2Chain61_bound (x : Nat) (h1 : 1 ≤ x) (h2 : x ≤ 0x2000000000000000) :
    (∃ j, pow2Chain61 x = 2 ^ j) ∧ x ≤ pow2Chain61 x ∧ pow2Chain61 x < 2 * x := by
  unfold pow2Chain61
  by_cases h : x > 0x1000000000000000
  · rw [if_pos h]
    exact ⟨⟨61, by norm_num⟩, by omega, by omega⟩
  · rw [if_neg h]
    exact pow2Chain60_bound x h1 (by omega)

lemma pow2Chain62_bound (x : Nat) (h1 : 1 ≤ x) (h2 : x ≤ 0x4000000000000000) :
    (∃ j, pow2Chain62 x = 2 ^ j) ∧ x ≤ pow2Chain62 x ∧ pow2Chain62 x < 2 * x := by
  unfold pow2Chain62
  by_cases h : x > 0x2000000000000000
  · rw [if_pos h]
    exact ⟨⟨62, by norm_num⟩, by omega, by omega⟩
  · rw [if_neg h]
    exact pow2Chain61_bound x h1 (by omega)

lemma pow2Chain63_bound (x : Nat) (h1 : 1 ≤ x) (h2 : x ≤ 0x8000000000000000) :
    (∃ j, pow2Chain63 x = 2 ^ j) ∧ x ≤ pow2Chain63 x ∧ pow2Chain63 x < 2 * x := by
  unfold pow2Chain63
  by_cases h : x > 0x4000000000000000
  · rw [if_pos h]
    exact ⟨⟨63, by norm_num⟩, by omega, by omega⟩
  · rw [if_neg h]
    exact pow2Chain62_bound x h1 (by omega)
lemma two_pow_le_of (x k j : Nat) (hge : x ≤ 2 ^ k) (hlt : 2 ^ k < 2 * x)
    (hj : x ≤ 2 ^ j) : 2 ^ k ≤ 2 ^ j := by
  rcases le_or_lt k j with h | h
  · exact Nat.pow_le_pow_right (by norm_num) h
  · exfalso
    have h2 : (2 : Nat) ^ (j + 1) ≤ 2 ^ k := Nat.pow_le_pow_right (by norm_num) h
    have h3 : (2 : Nat) ^ (j + 1) = 2 * 2 ^ j := by
      rw [pow_succ]
      ring
    have h4 : 2 * x ≤ 2 * 2 ^ j := Nat.mul_le_mul_left 2 hj
    have h2x : 2 * 2 ^ j ≤ 2 ^ k := by
      rw [← h3]
      exact h2
    exact absurd (lt_of_le_of_lt h4 (lt_of_le_of_lt h2x hlt)) (lt_irrefl _)

lemma pow2ceil_bound (x : Nat) (hx1 : 1 ≤ x) (hx2 : x ≤ 2 ^ 63) :
    (∃ k, POW2_CEIL x = 2 ^ k) ∧ x ≤ POW2_CEIL x ∧ POW2_CEIL x < 2 * x := by
  have h2 : x ≤ 9223372036854775808 := by
    norm_num at hx2
    omega
  unfold POW2_CEIL
  rw [if_neg (by omega)]
  exact pow2Chain63_bound x hx1 h2

/-- Claim C9: for every x with 1 ≤ x ≤ 2 ^ 63, POW2_CEIL x is the least
power of two greater than or equal to x: it is at least x, it is a power
of two, it is below every power of two that is at least x, and when x is
itself a power of two the result is x, not the next larger power. -/
theorem pow2ceil_least (x : Nat) (hx1 : 1 ≤ x) (hx2 : x ≤ 2 ^ 63) :
    x ≤ POW2_CEIL x ∧ (∃ k, POW2_CEIL x = 2 ^ k) ∧
    (∀ j, x ≤ 2 ^ j → POW2_CEIL x ≤ 2 ^ j) ∧
    (∀ k, x = 2 ^ k → POW2_CEIL x = x) := by
  obtain ⟨⟨k, hk⟩, hge, hlt⟩ := pow2ceil_bound x hx1 hx2
  refine ⟨hge, ⟨k, hk⟩, ?_, ?_⟩
  · intro j hj
    rw [hk]
    exact two_pow_le_of x k j (hk ▸ hge) (hk ▸ hlt) hj
  · intro m hm
    have h1 : 2 ^ k ≤ 2 ^ m :=
      two_pow_le_of x k m (hk ▸ hge) (hk ▸ hlt) (le_of_eq hm)
    have h2 : POW2_CEIL x ≤ x := by
      rw [hk, hm]
      exact h1
    exact le_antisymm h2 hge

/-- Witness for pow2ceil_least at x = 464, the vector table byte size. -/
theorem pow2ceil_least_witness :
    (1 ≤ 464 ∧ 464 ≤ 2 ^ 63) ∧
    (464 ≤ POW2_CEIL 464 ∧ (∃ k, POW2_CEIL 464 = 2 ^ k) ∧
     (∀ j, 464 ≤ 2 ^ j → POW2_CEIL 464 ≤ 2 ^ j) ∧
     (∀ k, 464 = 2 ^ k → POW2_CEIL 464 = 464)) :=
  ⟨⟨by decide, by decide⟩, pow2ceil_least 464 (by decide) (by decide)⟩

/-- Claim C2 counterexample: the struct EXCEPTION_VECTOR_TABLE has
in-memory size 512, not (16 + 100) * 4 = 464 bytes, because the aligned
attribute pads sizeof up to the 512-byte alignment; consequently the
spec-described assertion, that the table's size equals the expected
size, is false of the code, while the assertion actually in the code
compares the size with the alignment and holds. -/
theorem c2_size_counterexample :
    sizeofEXCEPTION_VECTOR_TABLE = 512 ∧
    EXCEPTION_TABLE_EXPECTED_SIZE = 464 ∧
    ¬ specTableSizeAssert ∧
    exceptionTableSizeAssert := by
  refine ⟨by decide, by decide, ?_, ?_⟩
  · show ¬ sizeofEXCEPTION_VECTOR_TABLE = EXCEPTION_TABLE_EXPECTED_SIZE
    decide
  · show sizeofEXCEPTION_VECTOR_TABLE = EXCEPTION_TABLE_ALIGNMENT
    decide

/-- Claim C2 (amended): the vector table's payload array occupies
exactly (16 + interrupt count) * pointer size = 464 bytes; the aligned
attribute pads the struct's in-memory size up to the alignment, giving
sizeof = 512; the build-time assertion checks that this size equals the
alignment, and it holds; and the alignment equals
max(128, next power of two of the 464-byte table size), so the table's
start address is constrained to a multiple of that bound. -/
theorem c2_table_size_alignment :
    EXCEPTION_TABLE_EXPECTED_SIZE = (16 + INTERRUPT_COUNT) * sizeofUintptr ∧
    EXCEPTION_TABLE_EXPECTED_SIZE = 464 ∧
    sizeofEXCEPTION_VECTOR_TABLE = 512 ∧
    exceptionTableSizeAssert ∧
    EXCEPTION_TABLE_ALIGNMENT = max 128 (POW2_CEIL EXCEPTION_TABLE_EXPECTED_SIZE) ∧
    EXCEPTION_TABLE_ALIGNMENT = 512 := by
  refine ⟨rfl, by decide, by decide, ?_, by decide, by decide⟩
  show sizeofEXCEPTION_VECTOR_TABLE = EXCEPTION_TABLE_ALIGNMENT
  decide

/-- Claim C7: in the constructed exception vector table, slot 0 holds
the top-of-stack address, slot 1 holds the reset entry point RTCoreMain,
the NMI, HardFault, MPU Fault, Bus Fault, Usage Fault, SVCall, Debug
Monitor, PendSV and SysTick slots (2..6, 11, 12, 14, 15) and all 100
peripheral interrupt slots (16..115) hold the shared default handler,
and the reserved slots 7..10 and 13 are zero, for arbitrary link-time
addresses of the three symbols. -/
theorem exceptionVectorTable_slots (st rm dh : Nat) :
    ExceptionVectorTable st rm dh 0 = st ∧
    ExceptionVectorTable st rm dh 1 = rm ∧
    (ExceptionVectorTable st rm dh 2 = dh ∧ ExceptionVectorTable st rm dh 3 = dh ∧
     ExceptionVectorTable st rm dh 4 = dh ∧ ExceptionVectorTable st rm dh 5 = dh ∧
     ExceptionVectorTable st rm dh 6 = dh ∧ ExceptionVectorTable st rm dh 11 = dh ∧
     ExceptionVectorTable st rm dh 12 = dh ∧ ExceptionVectorTable st rm dh 14 = dh ∧
     ExceptionVectorTable st rm dh 15 = dh) ∧
    (∀ i, 16 ≤ i → i ≤ 115 → ExceptionVectorTable st rm dh i = dh) ∧
    (ExceptionVectorTable st rm dh 7 = 0 ∧ ExceptionVectorTable st rm dh 8 = 0 ∧
     ExceptionVectorTable st rm dh 9 = 0 ∧ ExceptionVectorTable st rm dh 10 = 0 ∧
     ExceptionVectorTable st rm dh 13 = 0) := by
  refine ⟨rfl, rfl, ⟨rfl, rfl, rfl, rfl, rfl, rfl, rfl, rfl, rfl⟩, ?_,
    ⟨rfl, rfl, rfl, rfl, rfl⟩⟩
  intro i h16 h115
  unfold ExceptionVectorTable INT_TO_EXC INTERRUPT_COUNT
  rw [if_neg (by omega : ¬ i = 0), if_neg (by omega : ¬ i = 1), if_neg (by omega : ¬ i = 2),
    if_neg (by omega : ¬ i = 3), if_neg (by omega : ¬ i = 4), if_neg (by omega : ¬ i = 5),
    if_neg (by omega : ¬ i = 6), if_neg (by omega : ¬ i = 11), if_neg (by omega : ¬ i = 12),
    if_neg (by omega : ¬ i = 14), if_neg (by omega : ¬ i = 15),
    if_pos (by omega : 16 + 0 ≤ i ∧ i ≤ 16 + (100 - 1))]

/-- Claim C1 counterexample: raw sample 2048 gives
mV = 2048 * 2500 / 4095 = 1250, not 1249, and the loop prints it as
1.250, not 1.249. -/
theorem c1_sample2048_counterexample :
    loopMilliVolts 2048 = 1250 ∧ formattedSample 2048 = "1.250" ∧
    formattedSample 2048 ≠ "1.249" := by
  refine ⟨by decide, by decide, by decide⟩

/-- Claim C1 (amended): for every 12-bit raw sample the loop computes
the millivolt value raw * 2500 / 0xFFF with integer division (the
uint32_t intermediate does not wrap) and formats it as whole part, a
dot, and the fractional part zero-padded to three digits; raw 0xFFF
gives 2500 mV printed 2.500, raw 0 gives 0.000, and raw 2048 gives
mV = 2048 * 2500 / 4095 = 1250 printed 1.250. -/
theorem c1_millivolt_format (value : Nat) (h : value ≤ 0xFFF) :
    loopMilliVolts value = value * 2500 / 0xFFF ∧
    formattedSample value =
      Uart_WriteIntegerPoll (value * 2500 / 0xFFF / 1000) ++ "." ++
        Uart_WriteIntegerWidthPoll (value * 2500 / 0xFFF % 1000) 3 ∧
    loopMilliVolts 0xFFF = 2500 ∧ formattedSample 0xFFF = "2.500" ∧
    loopMilliVolts 0 = 0 ∧ formattedSample 0 = "0.000" ∧
    loopMilliVolts 2048 = 1250 ∧ formattedSample 2048 = "1.250" := by
  have hmv : loopMilliVolts value = value * 2500 / 0xFFF := by
    unfold loopMilliVolts
    omega
  refine ⟨hmv, ?_, by decide, by decide, by decide, by decide, by decide, by decide⟩
  unfold formattedSample
  rw [hmv]

/-- Witness for c1_millivolt_format at the raw sample 0. -/
theorem c1_millivolt_format_witness :
    0 ≤ 0xFFF ∧
    (loopMilliVolts 0 = 0 * 2500 / 0xFFF ∧
     formattedSample 0 =
       Uart_WriteIntegerPoll (0 * 2500 / 0xFFF / 1000) ++ "." ++
         Uart_WriteIntegerWidthPoll (0 * 2500 / 0xFFF % 1000) 3 ∧
     loopMilliVolts 0xFFF = 2500 ∧ formattedSample 0xFFF = "2.500" ∧
     loopMilliVolts 0 = 0 ∧ formattedSample 0 = "0.000" ∧
     loopMilliVolts 2048 = 1250 ∧ formattedSample 2048 = "1.250") :=
  ⟨by decide, c1_millivolt_format 0 (by decide)⟩

set_option maxRecDepth 10000 in
lemma repr_length_le_three : ∀ n, n < 1000 → (toString n).length ≤ 3 := by
  decide

/-- Claim C10: for every raw sample in [0, 0xFFF], the intermediate
product value * 2500 is at most 10237500 and does not wrap in 32-bit
unsigned arithmetic, the millivolt result is at most 2500, the printed
whole part mV / 1000 is at most 2, and the fractional part mV % 1000 is
below 1000, so the three zero-padded digits always suffice: the padded
fractional field is exactly three characters. -/
theorem c10_no_overflow (value : Nat) (h : value ≤ 0xFFF) :
    value * 2500 ≤ 10237500 ∧
    (value * 2500) % 2 ^ 32 = value * 2500 ∧
    loopMilliVolts value ≤ 2500 ∧
    loopMilliVolts value / 1000 ≤ 2 ∧
    loopMilliVolts value % 1000 < 1000 ∧
    (Uart_WriteIntegerWidthPoll (loopMilliVolts value % 1000) 3).length = 3 := by
  have hfrac : loopMilliVolts value % 1000 < 1000 := Nat.mod_lt _ (by norm_num)
  have hlen := repr_length_le_three _ hfrac
  have hmv : loopMilliVolts value = value * 2500 / 0xFFF := by
    unfold loopMilliVolts
    omega
  refine ⟨by omega, by omega, by rw [hmv]; omega, by rw [hmv]; omega, hfrac, ?_⟩
  unfold Uart_WriteIntegerWidthPoll
  simp only [String.length_append]
  show (List.replicate (3 - (toString (loopMilliVolts value % 1000)).length) '0').length
      + (toString (loopMilliVolts value % 1000)).length = 3
  rw [List.length_replicate]
  omega

/-- Witness for c10_no_overflow at the full-scale raw sample 4095. -/
theorem c10_no_overflow_witness :
    4095 ≤ 0xFFF ∧
    (4095 * 2500 ≤ 10237500 ∧
     (4095 * 2500) % 2 ^ 32 = 4095 * 2500 ∧
     loopMilliVolts 4095 ≤ 2500 ∧
     loopMilliVolts 4095 / 1000 ≤ 2 ∧
     loopMilliVolts 4095 % 1000 < 1000 ∧
     (Uart_WriteIntegerWidthPoll (loopMilliVolts 4095 % 1000) 3).length = 3) :=
  ⟨by decide, c10_no_overflow 4095 (by decide)⟩

end MT3620
